import Mathlib

/-!
Verification development for the `mj` browser front-end for generative
image/video editing.  The definitions below are a shallow embedding of the
decision-bearing code of the repository:

* `src/services/geminiService.ts` — error classification (`handleApiError`),
  faithfulness banding (`getFaithfulnessInstruction`), request construction for
  `editImage` and `generateImage`;
* `src/App.tsx` — the session state machine (`handleSubmit`, `handleUpscale`,
  `handleModeChange`, `handleDeleteCharacter`, and the earlier generation
  `handleResult` chained-editing flow).

Network calls are modelled as an explicit provider oracle; the asynchronous
setState calls of a React handler are modelled as a pure transition on a
record of the component state, reflecting the net effect of the handler.
-/

/-- JavaScript string truthiness for an optional string field
(`null`/`undefined` and the empty string are falsy). -/
def strTruthy : Option String → Bool
  | none => false
  | some s => !s.isEmpty

/-- JavaScript `a || "image/png"` on an optional string (empty string is
falsy, so it also falls back to the default). -/
def orPng : Option String → String
  | none => "image/png"
  | some s => if s.isEmpty then "image/png" else s

/-- Does the list of characters start with the pattern? (`List` analogue of
JavaScript `String.prototype.startsWith`). -/
def charsStartWith : List Char → List Char → Bool
  | _, [] => true
  | [], _ :: _ => false
  | h :: hs, p :: ps => (h == p) && charsStartWith hs ps

/-- Does `pat` occur as a contiguous substring of `hay`? (`List` analogue of
JavaScript `String.prototype.includes`). -/
def charsContain (hay pat : List Char) : Bool :=
  match hay with
  | [] => pat.isEmpty
  | _ :: t => charsStartWith hay pat || charsContain t pat

/-- JavaScript `haystack.includes(needle)` on strings. -/
def strIncludes (hay pat : String) : Bool :=
  charsContain hay.toList pat.toList

/-- JavaScript `s.toLowerCase()` (ASCII case folding, which is all the
matched keywords need). -/
def strToLower (s : String) : String :=
  ⟨s.toList.map Char.toLower⟩

/-- `src/types.ts` `Character`: a reusable identity for consistent
generation. `referenceImageBase64`/`referenceImageMimeType` are the optional
(`string | null | undefined`) fields of the source. -/
structure Character where
  id : String
  name : String
  description : String
  referenceImageBase64 : Option String
  referenceImageMimeType : Option String
  deriving DecidableEq, Repr

/-- The JavaScript truthiness test `character?.referenceImageBase64` used by
`editImage` and `generateImage` to decide whether a character reference image
participates in the request. -/
def charRefPresent : Option Character → Bool
  | none => false
  | some c => strTruthy c.referenceImageBase64

/-- `character.name` of an optional character (empty when absent; only used
under `charRefPresent`). -/
def charName : Option Character → String
  | none => ""
  | some c => c.name

/-- An inline image payload (`inlineData` part): base64 data plus MIME type.
This is the result of `fileToGenerativePart` in `geminiService.ts`. -/
structure ImagePart where
  data : String
  mimeType : String
  deriving DecidableEq, Repr

/-- `fileToGenerativePart(base64, mimeType)` from `geminiService.ts`. -/
def fileToGenerativePart (base64 : String) (mimeType : String) : ImagePart :=
  ⟨base64, mimeType⟩

/-- The image part built for a character reference (`editImage` lines
100–103 / `generateImage` lines 234–237): the reference image data with
`referenceImageMimeType || "image/png"`. -/
def charRefImagePart : Option Character → ImagePart
  | none => fileToGenerativePart "" "image/png"
  | some c =>
      fileToGenerativePart (c.referenceImageBase64.getD "")
        (orPng c.referenceImageMimeType)

/-! ### Faithfulness banding (`getFaithfulnessInstruction`) -/

/-- The five fixed faithfulness directives returned by
`getFaithfulnessInstruction` in `geminiService.ts`, one constructor per fixed
string, in source order:
* `loose` — the likeness is a loose inspiration; prioritize creativity.
* `resemble` — the output should resemble the character, creative
  interpretation allowed.
* `clearRepresentation` — the output should be a clear representation of the
  character.
* `veryClose` — a very close and accurate likeness is required, minor
  deviations acceptable.
* `exactCritical` — it is CRITICAL that the result is an EXACT photorealistic
  match; faithfulness above all other instructions. -/
inductive FaithfulnessBand where
  | loose
  | resemble
  | clearRepresentation
  | veryClose
  | exactCritical
  deriving DecidableEq, Repr

/-- `getFaithfulnessInstruction(faithfulness)` from `geminiService.ts`
lines 44–58: the cascade of `faithfulness <= 20 / 40 / 60 / 80` tests, the
final string being the default. Each band value stands for the fixed string
documented on `FaithfulnessBand`. -/
def getFaithfulnessInstruction (faithfulness : Nat) : FaithfulnessBand :=
  if faithfulness ≤ 20 then .loose
  else if faithfulness ≤ 40 then .resemble
  else if faithfulness ≤ 60 then .clearRepresentation
  else if faithfulness ≤ 80 then .veryClose
  else .exactCritical

/-! ### Error classification (`handleApiError`) -/

/-- The keyword test of `handleApiError` lines 19–25: "xhr error", "500"
and "Requested entity was not found." are matched case-sensitively
(`errorMessage.includes(...)`), while "network" and "failed to fetch"
are matched against `errorMessage.toLowerCase()`. -/
def networkKeywordHit (errorMessage : String) : Bool :=
  strIncludes errorMessage "xhr error" ||
  strIncludes errorMessage "500" ||
  strIncludes (strToLower errorMessage) "network" ||
  strIncludes (strToLower errorMessage) "failed to fetch" ||
  strIncludes errorMessage "Requested entity was not found."

/-- The safety test of `handleApiError` line 30:
`errorMessage.toLowerCase().includes("safety")` (the source uses single quotes). -/
def safetyKeywordHit (errorMessage : String) : Bool :=
  strIncludes (strToLower errorMessage) "safety"

/-- The expanded user-facing safety message thrown by `handleApiError`
lines 31–37 (the template with `context` interpolated). -/
def safetyDetailedMessage (context : String) : String :=
  "The request to " ++ context ++
  " was blocked for safety reasons. This can happen due to the prompt, the images used, or their combination.\n\nPlease try adjusting your request by:\n- Using different images.\n- Making your prompt more descriptive.\n- Ensuring your request is respectful and avoids potentially sensitive topics."

/-- The generic fallback message thrown by `handleApiError` line 41. -/
def genericFallbackMessage (context : String) : String :=
  "Failed to " ++ context ++
  ": An unexpected error occurred. Please check the console for more details."

/-- `handleApiError(e, context)` from `geminiService.ts` lines 14–42, as the
message of the error it throws, given the message of the caught error.
(The `e instanceof Error` guard is modelled by taking the extracted
`errorMessage` directly.) -/
def handleApiError (errorMessage context : String) : String :=
  if networkKeywordHit errorMessage then errorMessage
  else if safetyKeywordHit errorMessage then safetyDetailedMessage context
  else genericFallbackMessage context

/-! ### `editImage` request construction -/

/-- Positional role of one submitted image, as announced by the
`**IMAGE ROLES:**` lines composed in `editImage` lines 114–122:
`reference n` stands for the line "The IMAGE #k is a REFERENCE image for the
character named n", `element` for "... is an ELEMENT to incorporate into the
scene", `target` for "... is the TARGET image to be edited". -/
inductive RoleKind where
  | reference (characterName : String)
  | element
  | target
  deriving DecidableEq, Repr

/-- The ordered image-part list built by `editImage` lines 96–111: character
reference first (when `character?.referenceImageBase64` is truthy), then the
additional image (when present), then always the main target image. -/
def editImageParts (character : Option Character)
    (additionalImage : Option ImagePart) (target : ImagePart) :
    List ImagePart :=
  (if charRefPresent character then [charRefImagePart character] else []) ++
  (match additionalImage with
   | some a => [a]
   | none => []) ++
  [target]

/-- The numbered role-label lines built by `editImage` lines 114–122, with
the `imageCounter` starting at 1 and incremented after each pushed line. -/
def editImageRoles (character : Option Character)
    (additionalImage : Option ImagePart) : List (Nat × RoleKind) :=
  let c1 := 1
  let s1 := if charRefPresent character then
      ([(c1, RoleKind.reference (charName character))], c1 + 1)
    else ([], c1)
  let s2 := if additionalImage.isSome then
      (s1.1 ++ [(s1.2, RoleKind.element)], s1.2 + 1)
    else s1
  s2.1 ++ [(s2.2, RoleKind.target)]

/-- The image that a role label of the given kind describes, in the context
of an `editImage` call: a `reference` label describes the character reference
image, an `element` label the additional image, a `target` label the main
image. -/
def roleDescribedImage (character : Option Character)
    (additionalImage : Option ImagePart) (target : ImagePart) :
    RoleKind → ImagePart
  | .reference _ => charRefImagePart character
  | .element => additionalImage.getD target
  | .target => target

/-! ### `generateImage` request construction and response extraction -/

/-- Structured stand-in for the long instruction templates of
`geminiService.ts`, recording exactly the data interpolated into each fixed
template string:
* `generateWithCharacterInstruction` — the character-branch instruction of
  `generateImage` (lines 210–232), interpolating the aspect ratio, the
  character name and description, and the faithfulness directive;
* `imagenFullPrompt` — the description-only `fullPrompt` of `generateImage`
  (lines 274–289), interpolating only the user prompt;
* `userPrompt` — a raw user prompt sent as its own final text part. -/
inductive PromptText where
  | generateWithCharacterInstruction (aspect : String) (name : String)
      (description : String) (band : FaithfulnessBand)
  | imagenFullPrompt (prompt : String)
  | userPrompt (prompt : String)
  deriving DecidableEq, Repr

/-- One part of a multi-part request: an inline image or a text part. -/
inductive ReqPart where
  | image (p : ImagePart)
  | text (t : PromptText)
  deriving DecidableEq, Repr

/-- A request submitted to the provider by `generateImage`: either a
`generateContent` call (character branch) or a `generateImages` call
(description-only branch, with `numberOfImages: 1`). -/
inductive GenRequest where
  | generateContent (model : String) (parts : List ReqPart)
  | generateImages (model : String) (prompt : PromptText) (aspect : String)
      (outputMimeType : String) (numberOfImages : Nat)
  deriving DecidableEq, Repr

/-- The request built by `generateImage(prompt, aspectRatio, character,
faithfulness)` (`geminiService.ts` lines 198–312): with a truthy character
reference image it is a `gemini-2.5-flash-image` `generateContent` call with
parts `[reference image, instruction text, user prompt]`; otherwise it is an
`imagen-4.0-generate-001` `generateImages` call whose prompt interpolates
only the user prompt. -/
def generateImageRequest (prompt : String) (aspect : String)
    (character : Option Character) (faithfulness : Nat) : GenRequest :=
  if charRefPresent character then
    .generateContent "gemini-2.5-flash-image"
      [.image (charRefImagePart character),
       .text (.generateWithCharacterInstruction aspect (charName character)
         ((character.map Character.description).getD "")
         (getFaithfulnessInstruction faithfulness)),
       .text (.userPrompt prompt)]
  else
    .generateImages "imagen-4.0-generate-001" (.imagenFullPrompt prompt)
      aspect "image/png" 1

/-- One part of a `generateContent` response candidate. -/
inductive RespPart where
  | inlineData (data : String) (mimeType : String)
  | text (s : String)
  deriving DecidableEq, Repr

/-- A provider response: either a `generateContent` response (candidates,
each a list of parts) or a `generateImages` response (list of image byte
payloads); `failed m` models the call throwing with message `m`. -/
inductive GenResponse where
  | content (candidates : List (List RespPart))
  | images (generated : List String)
  | failed (message : String)
  deriving DecidableEq, Repr

/-- The provider oracle: what the external API returns for each request. -/
def Provider : Type := GenRequest → GenResponse

/-- The result record returned by every generation/edit call
(`EditResult` in `src/types.ts`). -/
structure EditResult where
  editedImageBase64 : String
  editedText : Option String
  mimeType : Option String
  deriving DecidableEq, Repr

/-- The extraction loop shared by the `generateContent` consumers
(`geminiService.ts` lines 250–264 and analogues): walk the first candidate
parts; each `inlineData` part overwrites the image and MIME type, each text
part overwrites the narrative text. -/
def scanRespParts (parts : List RespPart) :
    Option String × Option String × Option String :=
  parts.foldl
    (fun acc p =>
      match p with
      | .inlineData d m => (some d, acc.2.1, some m)
      | .text s => (acc.1, some s, acc.2.2))
    (none, none, none)

/-- `generateImage` run against a provider oracle (`geminiService.ts`
lines 198–312): builds the request, submits it once, extracts the result,
and routes every failure message through `handleApiError` with context
`"generate the image"`. `Except.error` carries the thrown message. -/
def runGenerateImage (provider : Provider) (prompt : String) (aspect : String)
    (character : Option Character) (faithfulness : Nat) :
    Except String EditResult :=
  let req := generateImageRequest prompt aspect character faithfulness
  let fail := fun m => Except.error (handleApiError m "generate the image")
  if charRefPresent character then
    match provider req with
    | .failed m => fail m
    | .images _ => fail "An unknown error occurred."
    | .content candidates =>
        match candidates.head? with
        | none => fail "API did not return an image for character generation."
        | some parts =>
            let scanned := scanRespParts parts
            if strTruthy scanned.1 then
              Except.ok ⟨scanned.1.getD "", scanned.2.1, scanned.2.2⟩
            else
              fail "API did not return an image for character generation."
  else
    match provider req with
    | .failed m => fail m
    | .content _ => fail "An unknown error occurred."
    | .images generated =>
        match generated.head? with
        | none => fail "API did not return any images."
        | some bytes =>
            Except.ok ⟨bytes, none, some "image/png"⟩


/-! ### `src/App.tsx` session state machine (current generation) -/

/-- The `Mode` union of `src/App.tsx`. -/
inductive Mode where
  | edit
  | generate
  deriving DecidableEq, Repr

/-- `GalleryItem` of `src/types.ts`: an `EditResult` plus an `id`. -/
structure GalleryItem extends EditResult where
  id : String
  deriving DecidableEq, Repr

/-- Build the gallery entry `{ ...res, id }` prepended on success. -/
def mkGalleryItem (res : EditResult) (id : String) : GalleryItem :=
  { res with id := id }

/-- The component state of the current-generation `App` in `src/App.tsx`
(the `useState` hooks that the verified handlers read or write; view-only
state such as previews and modal flags is omitted). `uploadedImageData` is
the working image, `result` the current result, `error` the error state. -/
structure AppState where
  mode : Mode
  prompt : String
  uploadedImageData : Option ImagePart
  additionalImageData : Option ImagePart
  isLoading : Bool
  result : Option EditResult
  galleryImages : List GalleryItem
  characters : List Character
  selectedCharacterId : Option String
  imageFaithfulness : Nat
  aspect : String
  error : Option String
  deriving DecidableEq, Repr

/-- Outcome of the awaited service call inside a submit or upscale handler:
either the `EditResult` it resolved with, or the message of the error it
threw (already processed by `handleApiError` inside the service). -/
inductive CallOutcome where
  | success (res : EditResult)
  | failure (message : String)
  deriving DecidableEq, Repr

/-- `handleModeChange(newMode)` from `src/App.tsx` lines 353–357:
`setMode(newMode); setResult(null); setError(null);`. -/
def handleModeChange (s : AppState) (newMode : Mode) : AppState :=
  { s with mode := newMode, result := none, error := none }

/-- `handleSubmit` from `src/App.tsx` lines 359–391, as the net state
transition once the service call settles with `outcome`; `freshId` is the
`uuidv4()` minted for the gallery entry. The two early validation returns
set only the error message; otherwise `setIsLoading(true); setError(null);
setResult(null)` run, the call settles, and on success the result is stored
and prepended to the gallery while on failure only the error is stored
(the result stays cleared); `finally` resets `isLoading`. -/
def handleSubmit (s : AppState) (freshId : String) (outcome : CallOutcome) :
    AppState :=
  if s.prompt.isEmpty then
    { s with error := some "Please enter a prompt." }
  else if s.mode = .edit ∧ s.uploadedImageData = none then
    { s with error := some "Please upload an image to edit." }
  else
    match outcome with
    | .success res =>
        { s with isLoading := false, error := none, result := some res,
                 galleryImages := mkGalleryItem res freshId :: s.galleryImages }
    | .failure m =>
        { s with isLoading := false, error := some m, result := none }

/-- `handleUpscale` from `src/App.tsx` lines 393–420, as the net state
transition once `upscaleImage` settles with `outcome`. The guard requires a
truthy `result?.editedImageBase64`; on success the gallery entry whose
payload equals the pre-upscale image is replaced in place (found by
`galleryImages.find(...)`, replaced by `map` on its id), else a fresh entry
is prepended. -/
def handleUpscale (s : AppState) (freshId : String) (outcome : CallOutcome) :
    AppState :=
  match s.result with
  | none => { s with error := some "No result image available to upscale." }
  | some r =>
      if r.editedImageBase64.isEmpty then
        { s with error := some "No result image available to upscale." }
      else
        match outcome with
        | .success res =>
            let targetImage := r.editedImageBase64
            let oldId := (s.galleryImages.find?
              (fun img => img.editedImageBase64 = targetImage)).map GalleryItem.id
            { s with isLoading := false, error := none, result := some res,
                     galleryImages :=
                       match oldId with
                       | some oid =>
                           s.galleryImages.map
                             (fun img => if img.id = oid then mkGalleryItem res oid else img)
                       | none => mkGalleryItem res freshId :: s.galleryImages }
        | .failure m =>
            { s with isLoading := false, error := some m }

/-- `handleDeleteCharacter(id)` from `src/App.tsx` lines 449–456 (the branch
where the user confirms the dialog): the character list is filtered and the
selection cleared only when it matched the deleted id. -/
def handleDeleteCharacter (s : AppState) (id : String) : AppState :=
  { s with characters := s.characters.filter (fun c => c.id ≠ id),
           selectedCharacterId :=
             if s.selectedCharacterId = some id then none
             else s.selectedCharacterId }

/-- `handleOutfitGenerated(outfitResult)` from `src/App.tsx` lines 482–484:
prepends the outfit result to the gallery. -/
def handleOutfitGenerated (s : AppState) (freshId : String)
    (outfitResult : EditResult) : AppState :=
  { s with galleryImages := mkGalleryItem outfitResult freshId :: s.galleryImages }

/-- One successful gallery-producing operation of a session history: a
successful generate/edit submit, or an outfit generation accepted from the
outfit modal. Each carries the minted id and the service result. -/
inductive GalleryOp where
  | submitSuccess (freshId : String) (res : EditResult)
  | outfitGenerated (freshId : String) (res : EditResult)
  deriving DecidableEq, Repr

/-- Apply one gallery-producing operation. -/
def applyGalleryOp (s : AppState) : GalleryOp → AppState
  | .submitSuccess freshId res => handleSubmit s freshId (.success res)
  | .outfitGenerated freshId res => handleOutfitGenerated s freshId res

/-- Run a sequence of successful operations, oldest first. -/
def applyGalleryOps (s : AppState) (ops : List GalleryOp) : AppState :=
  ops.foldl applyGalleryOp s

/-- The gallery entry an operation produces. -/
def GalleryOp.item : GalleryOp → GalleryItem
  | .submitSuccess freshId res => mkGalleryItem res freshId
  | .outfitGenerated freshId res => mkGalleryItem res freshId

/-! ### `src/App.tsx` earlier generation: `handleResult` chained editing -/

/-- The component state of the earlier-generation `App` in `src/App.tsx`
(lines 18–32): no aspect ratio or additional image yet; `uploadedFile` is
the working image (modelled by its data and MIME type). -/
structure AppStateV1 where
  mode : Mode
  prompt : String
  uploadedFile : Option ImagePart
  isLoading : Bool
  result : Option EditResult
  galleryImages : List GalleryItem
  characters : List Character
  selectedCharacterId : Option String
  selectedStyle : String
  imageFaithfulness : Nat
  error : Option String
  deriving DecidableEq, Repr

/-- `handleResult(apiResult)` from `src/App.tsx` lines 109–119: stores the
result, prepends `{ ...apiResult, id: uuidv4() }` to the gallery, converts
the result image to a PNG file and re-uploads it as the next working image
via `handleImageUpload(file, true)` (which also sets mode to `edit` and, with
`keepResult = true`, does not clear the result), clears the prompt, and
resets the loading flag. -/
def handleResult (s : AppStateV1) (freshId : String) (apiResult : EditResult) :
    AppStateV1 :=
  { s with result := some apiResult,
           galleryImages := mkGalleryItem apiResult freshId :: s.galleryImages,
           uploadedFile := some ⟨apiResult.editedImageBase64, "image/png"⟩,
           mode := .edit,
           prompt := "",
           isLoading := false }

/-! ### Concrete sample data used by witnesses and counterexamples -/

/-- A sample successful service result. -/
def sampleRes : EditResult := ⟨"img1", none, some "image/png"⟩

/-- A sample session state ready to submit in generate mode. -/
def baseState : AppState :=
  { mode := .generate, prompt := "make it rain",
    uploadedImageData := some ⟨"origimg", "image/png"⟩,
    additionalImageData := none, isLoading := false, result := none,
    galleryImages := [], characters := [], selectedCharacterId := none,
    imageFaithfulness := 50, aspect := "1:1", error := none }

/-- `baseState` switched to edit mode (working image already present). -/
def editState : AppState := { baseState with mode := .edit }

/-- A sample character without a reference image. -/
def plainCharacter : Character :=
  { id := "c1", name := "Nia", description := "a tall sailor",
    referenceImageBase64 := none, referenceImageMimeType := none }

/-- A sample character with a reference image. -/
def refCharacter : Character :=
  { id := "c2", name := "Rex", description := "a red-haired pilot",
    referenceImageBase64 := some "refimg",
    referenceImageMimeType := some "image/jpeg" }

/-! ### Claim theorems -/

/-- C2: for every faithfulness value, the instruction returned is one of the
five fixed directives, selected by `v ≤ 20`, `v ≤ 40`, `v ≤ 60`, `v ≤ 80`,
else the fifth; band boundaries are inclusive on the upper end, so 20, 40,
60, 80 map to the band they end and 100 falls in the top band; the five
directives are pairwise distinct. -/
theorem getFaithfulnessInstruction_banding (v : Nat) :
    (v ≤ 20 → getFaithfulnessInstruction v = .loose) ∧
    (20 < v → v ≤ 40 → getFaithfulnessInstruction v = .resemble) ∧
    (40 < v → v ≤ 60 → getFaithfulnessInstruction v = .clearRepresentation) ∧
    (60 < v → v ≤ 80 → getFaithfulnessInstruction v = .veryClose) ∧
    (80 < v → getFaithfulnessInstruction v = .exactCritical) ∧
    (getFaithfulnessInstruction 20 = .loose ∧
     getFaithfulnessInstruction 40 = .resemble ∧
     getFaithfulnessInstruction 60 = .clearRepresentation ∧
     getFaithfulnessInstruction 80 = .veryClose ∧
     getFaithfulnessInstruction 100 = .exactCritical) ∧
    ([FaithfulnessBand.loose, .resemble, .clearRepresentation, .veryClose,
      .exactCritical] : List FaithfulnessBand).Nodup := by
  refine ⟨?_, ?_, ?_, ?_, ?_, by decide, by decide⟩ <;>
    · intros
      unfold getFaithfulnessInstruction
      repeat first
        | rw [if_pos (by omega)]
        | rw [if_neg (by omega)]

/-- C2 witness: the theorem applied at the in-band value 30. -/
theorem getFaithfulnessInstruction_banding_witness :
    getFaithfulnessInstruction 30 = .resemble :=
  (getFaithfulnessInstruction_banding 30).2.1 (by decide) (by decide)

/-- C1: for every combination of present optional images, the image-part
list built by `editImage` is exactly [character reference, additional image,
target] restricted to the present ones with the target always last, and the
role-label lines are numbered consecutively from 1 in that same order, so
label #k describes the k-th submitted image. -/
theorem editImage_image_role_ordering (character : Option Character)
    (additionalImage : Option ImagePart) (target : ImagePart) :
    editImageParts character additionalImage target =
      ([if charRefPresent character then some (charRefImagePart character)
        else none,
        additionalImage, some target] : List (Option ImagePart)).reduceOption ∧
    (editImageParts character additionalImage target).getLast? = some target ∧
    (editImageRoles character additionalImage).map Prod.fst =
      List.range' 1 (editImageParts character additionalImage target).length ∧
    editImageParts character additionalImage target =
      (editImageRoles character additionalImage).map
        (fun r => roleDescribedImage character additionalImage target r.2) ∧
    (editImageRoles character additionalImage).map Prod.snd =
      ([if charRefPresent character then
          some (RoleKind.reference (charName character)) else none,
        if additionalImage.isSome then some RoleKind.element else none,
        some RoleKind.target] : List (Option RoleKind)).reduceOption := by
  cases hc : charRefPresent character <;> cases additionalImage <;>
    simp [editImageParts, editImageRoles, roleDescribedImage, hc,
      List.reduceOption, List.range']

/-- C9 counterexample: switching from edit mode to generate mode leaves the
working image in place, so the claim that leaving edit mode releases the
working image is false on `handleModeChange`. -/
theorem mode_switch_retains_working_image_cex :
    (handleModeChange editState .generate).uploadedImageData =
      some ⟨"origimg", "image/png"⟩ ∧
    (handleModeChange editState .generate).uploadedImageData ≠ none := by
  decide

/-- C9 amended: every mode switch clears the current result and the error
state, and leaves everything else — including the working image, which is
never released — untouched: character selection, gallery, prompt text,
characters and additional image are preserved. -/
theorem mode_switch_frame_amended (s : AppState) (m : Mode) :
    (handleModeChange s m).mode = m ∧
    (handleModeChange s m).result = none ∧
    (handleModeChange s m).error = none ∧
    (handleModeChange s m).uploadedImageData = s.uploadedImageData ∧
    (handleModeChange s m).selectedCharacterId = s.selectedCharacterId ∧
    (handleModeChange s m).galleryImages = s.galleryImages ∧
    (handleModeChange s m).prompt = s.prompt ∧
    (handleModeChange s m).characters = s.characters ∧
    (handleModeChange s m).additionalImageData = s.additionalImageData := by
  simp [handleModeChange]

/-- C8: deleting a character removes every list entry carrying that id while
keeping all others in order, clears the session selection exactly when it
pointed at the deleted id, and leaves it untouched otherwise. -/
theorem delete_character_cascades_selection (s : AppState) (id : String) :
    (∀ c ∈ (handleDeleteCharacter s id).characters, c.id ≠ id) ∧
    (∀ c ∈ s.characters, c.id ≠ id → c ∈ (handleDeleteCharacter s id).characters) ∧
    (handleDeleteCharacter s id).characters.Sublist s.characters ∧
    (s.selectedCharacterId = some id →
      (handleDeleteCharacter s id).selectedCharacterId = none) ∧
    (s.selectedCharacterId ≠ some id →
      (handleDeleteCharacter s id).selectedCharacterId = s.selectedCharacterId) := by
  refine ⟨?_, ?_, ?_, ?_, ?_⟩
  · intro c hc
    have := List.of_mem_filter hc
    simpa using this
  · intro c hc hne
    exact List.mem_filter.2 ⟨hc, by simpa using hne⟩
  · exact List.filter_sublist s.characters
  · intro h
    simp [handleDeleteCharacter, h]
  · intro h
    simp [handleDeleteCharacter, h]

/-- A session state with two characters, the first selected. -/
def twoCharState : AppState :=
  { baseState with characters := [plainCharacter, refCharacter],
                   selectedCharacterId := some "c1" }

/-- C8 witness: deleting the selected character `c1` from `twoCharState`
clears the selection, as the theorem instantiates. -/
theorem delete_character_cascades_selection_witness :
    (handleDeleteCharacter twoCharState "c1").selectedCharacterId = none :=
  (delete_character_cascades_selection twoCharState "c1").2.2.2.1 (by decide)

/-- C3 counterexample: after a successful submit followed by a failing
submit, the working image and the prompt are indeed unchanged, but the
current result is cleared to `none` rather than restored to its pre-submit
value, so the claim is false as stated. -/
theorem submit_failure_result_cleared_cex :
    (handleSubmit (handleSubmit baseState "id1" (.success sampleRes)) "id2"
        (.failure "boom")).uploadedImageData =
      (handleSubmit baseState "id1" (.success sampleRes)).uploadedImageData ∧
    (handleSubmit (handleSubmit baseState "id1" (.success sampleRes)) "id2"
        (.failure "boom")).prompt =
      (handleSubmit baseState "id1" (.success sampleRes)).prompt ∧
    (handleSubmit baseState "id1" (.success sampleRes)).result = some sampleRes ∧
    (handleSubmit (handleSubmit baseState "id1" (.success sampleRes)) "id2"
        (.failure "boom")).result = none ∧
    (handleSubmit (handleSubmit baseState "id1" (.success sampleRes)) "id2"
        (.failure "boom")).result ≠
      (handleSubmit baseState "id1" (.success sampleRes)).result := by
  decide

/-- C3 amended: for every validated submit sequence of a success followed by
a failure, the failing submit leaves the working image, the prompt text, the
additional image and the gallery unchanged, surfaces the failure message as
the error state, but clears the current result to `none` at the start of the
attempt and does not restore it. -/
theorem submit_failure_nondestructive_amended (s : AppState)
    (id1 id2 : String) (res : EditResult) (msg : String)
    (hp : s.prompt.isEmpty = false)
    (hv : ¬(s.mode = .edit ∧ s.uploadedImageData = none)) :
    (handleSubmit (handleSubmit s id1 (.success res)) id2
        (.failure msg)).uploadedImageData =
      (handleSubmit s id1 (.success res)).uploadedImageData ∧
    (handleSubmit (handleSubmit s id1 (.success res)) id2
        (.failure msg)).prompt = (handleSubmit s id1 (.success res)).prompt ∧
    (handleSubmit (handleSubmit s id1 (.success res)) id2
        (.failure msg)).additionalImageData =
      (handleSubmit s id1 (.success res)).additionalImageData ∧
    (handleSubmit (handleSubmit s id1 (.success res)) id2
        (.failure msg)).galleryImages =
      (handleSubmit s id1 (.success res)).galleryImages ∧
    (handleSubmit (handleSubmit s id1 (.success res)) id2
        (.failure msg)).error = some msg ∧
    (handleSubmit (handleSubmit s id1 (.success res)) id2
        (.failure msg)).result = none := by
  simp [handleSubmit, hp, hv]

/-- C3 witness: the amended theorem applied to the concrete sample state. -/
theorem submit_failure_nondestructive_amended_witness :
    (handleSubmit (handleSubmit baseState "id1" (.success sampleRes)) "id2"
        (.failure "boom")).uploadedImageData =
      (handleSubmit baseState "id1" (.success sampleRes)).uploadedImageData ∧
    (handleSubmit (handleSubmit baseState "id1" (.success sampleRes)) "id2"
        (.failure "boom")).prompt =
      (handleSubmit baseState "id1" (.success sampleRes)).prompt ∧
    (handleSubmit (handleSubmit baseState "id1" (.success sampleRes)) "id2"
        (.failure "boom")).additionalImageData =
      (handleSubmit baseState "id1" (.success sampleRes)).additionalImageData ∧
    (handleSubmit (handleSubmit baseState "id1" (.success sampleRes)) "id2"
        (.failure "boom")).galleryImages =
      (handleSubmit baseState "id1" (.success sampleRes)).galleryImages ∧
    (handleSubmit (handleSubmit baseState "id1" (.success sampleRes)) "id2"
        (.failure "boom")).error = some "boom" ∧
    (handleSubmit (handleSubmit baseState "id1" (.success sampleRes)) "id2"
        (.failure "boom")).result = none :=
  submit_failure_nondestructive_amended baseState "id1" "id2" sampleRes "boom"
    (by decide) (by decide)

/-- C7 counterexample: in the current `App` generation, a successful
edit-mode submit leaves the prompt text and the working image unchanged —
the prompt is not cleared to empty and the working image is not replaced by
the new result — so the claim is false on `handleSubmit`. -/
theorem edit_submit_no_chaining_cex :
    (handleSubmit editState "id1" (.success sampleRes)).prompt =
      "make it rain" ∧
    (handleSubmit editState "id1" (.success sampleRes)).prompt ≠ "" ∧
    (handleSubmit editState "id1" (.success sampleRes)).uploadedImageData =
      some ⟨"origimg", "image/png"⟩ ∧
    (handleSubmit editState "id1" (.success sampleRes)).uploadedImageData ≠
      some ⟨sampleRes.editedImageBase64, "image/png"⟩ := by
  decide

/-- C7 amended: on a successful edit-mode submit the new result is prepended
to the gallery at index 0 and becomes the current result, with mode,
character selection, aspect ratio, prompt text and working image all
preserved (no chained editing in the current `App` generation); the
chained-editing behaviour the claim describes — working image replaced by
the result image and prompt cleared, with mode kept at edit and character
selection preserved — is implemented only by the earlier
generation function `handleResult`. -/
theorem edit_submit_settlement_amended (s : AppState) (s1 : AppStateV1)
    (freshId freshId1 : String) (res : EditResult)
    (hp : s.prompt.isEmpty = false) (_hm : s.mode = .edit)
    (hu : s.uploadedImageData ≠ none) (hm1 : s1.mode = .edit) :
    (handleSubmit s freshId (.success res)).galleryImages =
      mkGalleryItem res freshId :: s.galleryImages ∧
    (handleSubmit s freshId (.success res)).result = some res ∧
    (handleSubmit s freshId (.success res)).prompt = s.prompt ∧
    (handleSubmit s freshId (.success res)).uploadedImageData =
      s.uploadedImageData ∧
    (handleSubmit s freshId (.success res)).mode = s.mode ∧
    (handleSubmit s freshId (.success res)).selectedCharacterId =
      s.selectedCharacterId ∧
    (handleSubmit s freshId (.success res)).aspect = s.aspect ∧
    (handleResult s1 freshId1 res).galleryImages =
      mkGalleryItem res freshId1 :: s1.galleryImages ∧
    (handleResult s1 freshId1 res).result = some res ∧
    (handleResult s1 freshId1 res).uploadedFile =
      some ⟨res.editedImageBase64, "image/png"⟩ ∧
    (handleResult s1 freshId1 res).prompt = "" ∧
    (handleResult s1 freshId1 res).mode = s1.mode ∧
    (handleResult s1 freshId1 res).selectedCharacterId =
      s1.selectedCharacterId := by
  have hv : ¬(s.mode = .edit ∧ s.uploadedImageData = none) := by
    intro h
    exact hu h.2
  simp [handleSubmit, handleResult, hp, hv, hm1]

/-- An earlier-generation session state in edit mode ready to submit. -/
def editStateV1 : AppStateV1 :=
  { mode := .edit, prompt := "make it rain",
    uploadedFile := some ⟨"origimg", "image/png"⟩, isLoading := true,
    result := none, galleryImages := [], characters := [],
    selectedCharacterId := none, selectedStyle := "", imageFaithfulness := 50,
    error := none }

/-- C7 witness: the amended theorem applied to the concrete edit states of
both `App` generations. -/
theorem edit_submit_settlement_amended_witness :
    (handleSubmit editState "id1" (.success sampleRes)).galleryImages =
      mkGalleryItem sampleRes "id1" :: editState.galleryImages ∧
    (handleSubmit editState "id1" (.success sampleRes)).result =
      some sampleRes ∧
    (handleSubmit editState "id1" (.success sampleRes)).prompt =
      editState.prompt ∧
    (handleSubmit editState "id1" (.success sampleRes)).uploadedImageData =
      editState.uploadedImageData ∧
    (handleSubmit editState "id1" (.success sampleRes)).mode =
      editState.mode ∧
    (handleSubmit editState "id1" (.success sampleRes)).selectedCharacterId =
      editState.selectedCharacterId ∧
    (handleSubmit editState "id1" (.success sampleRes)).aspect =
      editState.aspect ∧
    (handleResult editStateV1 "id2" sampleRes).galleryImages =
      mkGalleryItem sampleRes "id2" :: editStateV1.galleryImages ∧
    (handleResult editStateV1 "id2" sampleRes).result = some sampleRes ∧
    (handleResult editStateV1 "id2" sampleRes).uploadedFile =
      some ⟨sampleRes.editedImageBase64, "image/png"⟩ ∧
    (handleResult editStateV1 "id2" sampleRes).prompt = "" ∧
    (handleResult editStateV1 "id2" sampleRes).mode = editStateV1.mode ∧
    (handleResult editStateV1 "id2" sampleRes).selectedCharacterId =
      editStateV1.selectedCharacterId :=
  edit_submit_settlement_amended editState editStateV1 "id1" "id2" sampleRes
    (by decide) (by decide) (by decide) (by decide)

/-- The validation guard at the top of `handleSubmit`: a non-empty prompt,
and in edit mode a working image. A submit only reaches the service call —
and hence can only settle successfully — when this holds. -/
def submitValidates (s : AppState) : Prop :=
  s.prompt.isEmpty = false ∧ ¬(s.mode = .edit ∧ s.uploadedImageData = none)

/-- Whether an operation is a submit (generate- or edit-mode) as opposed to
an outfit generation accepted from the outfit modal. -/
def GalleryOp.isSubmit : GalleryOp → Bool
  | .submitSuccess _ _ => true
  | .outfitGenerated _ _ => false

/-- Every gallery-producing operation — in any mode, validated or not —
leaves the prompt, the mode and the working image untouched, so whether a
later submit validates never changes along a history. -/
theorem applyGalleryOp_preserves (s : AppState) (op : GalleryOp) :
    (applyGalleryOp s op).prompt = s.prompt ∧
    (applyGalleryOp s op).mode = s.mode ∧
    (applyGalleryOp s op).uploadedImageData = s.uploadedImageData := by
  cases op with
  | submitSuccess freshId res =>
      simp only [applyGalleryOp]
      unfold handleSubmit
      split
      · simp
      · split
        · simp
        · simp
  | outfitGenerated freshId res =>
      simp [applyGalleryOp, handleOutfitGenerated]

/-- One successful gallery-producing operation prepends exactly its entry,
provided a submit happens only in a state that validates. -/
theorem applyGalleryOp_step (s : AppState) (op : GalleryOp)
    (h : op.isSubmit = true → submitValidates s) :
    (applyGalleryOp s op).galleryImages = op.item :: s.galleryImages := by
  cases op with
  | submitSuccess freshId res =>
      obtain ⟨hp, hv⟩ := h rfl
      simp [applyGalleryOp, handleSubmit, GalleryOp.item, hp, hv]
  | outfitGenerated freshId res =>
      simp [applyGalleryOp, handleOutfitGenerated, GalleryOp.item]

/-- Folding a sequence of successful operations prepends their entries in
order, so the resulting gallery is the reversed entry list on top of the
initial gallery. The hypothesis asks only that the start state validates
when the history contains a submit; it covers generate-mode and edit-mode
submits alike, and is vacuous for all-outfit histories. -/
theorem applyGalleryOps_gallery (ops : List GalleryOp) (s : AppState)
    (h : ∀ op ∈ ops, op.isSubmit = true → submitValidates s) :
    (applyGalleryOps s ops).galleryImages =
      (ops.map GalleryOp.item).reverse ++ s.galleryImages := by
  induction ops generalizing s with
  | nil => simp [applyGalleryOps]
  | cons op t ih =>
      have hstep := applyGalleryOp_step s op (h op (by simp))
      have hpres := applyGalleryOp_preserves s op
      have hvalid : submitValidates (applyGalleryOp s op) ↔ submitValidates s := by
        unfold submitValidates
        rw [hpres.1, hpres.2.1, hpres.2.2]
      have ht := ih (applyGalleryOp s op)
        (fun op2 hm hs => hvalid.2 (h op2 (by simp [hm]) hs))
      show (applyGalleryOps (applyGalleryOp s op) t).galleryImages = _
      rw [ht, hstep]
      simp

/-- C6: starting from an empty gallery, after a sequence of N successful
generate/edit/outfit operations (each submit occurring in a state that
passes the submit validation, in whichever mode) the gallery is the reversed
sequence of the produced entries — the N-th (most recent) entry is at index
0 and the first is at index N-1; each i-th position holds the entry of the
(N-1-i)-th operation. -/
theorem gallery_append_ordering (ops : List GalleryOp) (s : AppState)
    (hv : ∀ op ∈ ops, op.isSubmit = true → submitValidates s)
    (hg : s.galleryImages = []) :
    (applyGalleryOps s ops).galleryImages = (ops.map GalleryOp.item).reverse ∧
    (∀ i, i < ops.length →
      ((applyGalleryOps s ops).galleryImages)[i]? =
        (ops[ops.length - 1 - i]?).map GalleryOp.item) := by
  have hgal := applyGalleryOps_gallery ops s hv
  rw [hg] at hgal
  simp only [List.append_nil] at hgal
  refine ⟨hgal, ?_⟩
  intro i hi
  rw [hgal]
  rw [List.getElem?_reverse (by simpa using hi)]
  simp [List.getElem?_map]

/-- C6 witness: an edit-mode history — an edit-mode submit followed by an
outfit generation, from the empty-gallery edit-mode sample state — puts the
second entry at index 0 and the first at index 1. -/
theorem gallery_append_ordering_witness :
    (applyGalleryOps editState
      [.submitSuccess "id1" sampleRes,
       .outfitGenerated "id2" ⟨"img2", none, some "image/png"⟩]).galleryImages =
      ([GalleryOp.submitSuccess "id1" sampleRes,
        GalleryOp.outfitGenerated "id2"
          ⟨"img2", none, some "image/png"⟩].map GalleryOp.item).reverse :=
  (gallery_append_ordering
    [.submitSuccess "id1" sampleRes,
     .outfitGenerated "id2" ⟨"img2", none, some "image/png"⟩]
    editState (fun _ _ _ => ⟨by decide, by decide⟩) (by decide)).1

/-- Replacing by id with `map`, as `handleUpscale` does, is a positional
in-place update: when the gallery ids are pairwise distinct, mapping the
"same id ⇒ replacement" function equals `set` at the matched index. -/
theorem map_replace_by_id_eq_set (l : List GalleryItem) (i : Nat)
    (h : i < l.length) (v : GalleryItem)
    (hnd : (l.map GalleryItem.id).Nodup) :
    l.map (fun img => if img.id = l[i].id then v else img) = l.set i v := by
  induction l generalizing i with
  | nil => simp at h
  | cons a t ih =>
      rw [List.map_cons, List.nodup_cons] at hnd
      cases i with
      | zero =>
          simp only [List.getElem_cons_zero, List.map_cons, List.set_cons_zero]
          rw [if_pos trivial]
          congr 1
          have hid : ∀ x ∈ t, (if x.id = a.id then v else x) = x := by
            intro x hx
            rw [if_neg]
            intro he
            exact hnd.1 (he ▸ List.mem_map_of_mem GalleryItem.id hx)
          calc t.map (fun x => if x.id = a.id then v else x)
              = t.map id := List.map_congr_left hid
            _ = t := List.map_id t
      | succ j =>
          have hj : j < t.length := by simpa using h
          simp only [List.getElem_cons_succ, List.map_cons,
            List.set_cons_succ]
          rw [if_neg, ih j hj hnd.2]
          intro he
          exact hnd.1 (he ▸ List.mem_map_of_mem GalleryItem.id (t.getElem_mem hj))

/-- C5: on a successful upscale, if the image payload of some gallery entry
matches the pre-upscale image byte-for-byte, the (first) matching entry is
replaced in place — same id, same position, all other entries unchanged, so
the gallery is a `set` at that index and its length is unchanged; if no
entry matches, a fresh-id entry is prepended at index 0 and the length grows
by exactly one. -/
theorem upscale_replace_or_append (s : AppState) (freshId : String)
    (r res : EditResult)
    (hres : s.result = some r) (hne : r.editedImageBase64.isEmpty = false)
    (hnd : (s.galleryImages.map GalleryItem.id).Nodup) :
    (∀ e, s.galleryImages.find?
        (fun img => img.editedImageBase64 = r.editedImageBase64) = some e →
      ∃ i, ∃ h : i < s.galleryImages.length,
        s.galleryImages[i] = e ∧
        (handleUpscale s freshId (.success res)).galleryImages =
          s.galleryImages.set i (mkGalleryItem res e.id) ∧
        (handleUpscale s freshId (.success res)).galleryImages.length =
          s.galleryImages.length) ∧
    ((∀ e ∈ s.galleryImages, e.editedImageBase64 ≠ r.editedImageBase64) →
      (handleUpscale s freshId (.success res)).galleryImages =
        mkGalleryItem res freshId :: s.galleryImages ∧
      (handleUpscale s freshId (.success res)).galleryImages.length =
        s.galleryImages.length + 1) := by
  constructor
  · intro e hfind
    have hmem := List.mem_of_find?_eq_some hfind
    obtain ⟨i, h, hei⟩ := List.getElem_of_mem hmem
    have hgal : (handleUpscale s freshId (.success res)).galleryImages =
        s.galleryImages.set i (mkGalleryItem res e.id) := by
      simp only [handleUpscale, hres, hne, Bool.false_eq_true,
        if_false, hfind, Option.map_some]
      rw [← hei]
      exact map_replace_by_id_eq_set s.galleryImages i h _ hnd
    refine ⟨i, h, hei, hgal, ?_⟩
    rw [hgal]
    exact List.length_set ..
  · intro hnone
    have hfind : s.galleryImages.find?
        (fun img => img.editedImageBase64 = r.editedImageBase64) = none := by
      rw [List.find?_eq_none]
      intro x hx
      simpa using hnone x hx
    simp [handleUpscale, hres, hne, hfind]

/-- A session state whose current result matches a gallery entry by payload,
flanked by non-matching entries. -/
def upscaleMatchState : AppState :=
  { baseState with
      result := some sampleRes,
      galleryImages :=
        [mkGalleryItem ⟨"imgA", none, some "image/png"⟩ "g0",
         mkGalleryItem sampleRes "g1",
         mkGalleryItem ⟨"imgB", none, some "image/png"⟩ "g2"] }

/-- C5 witness: upscaling the result of `upscaleMatchState` replaces the matching
entry `g1` in place at index 1, keeping the gallery length at 3. -/
theorem upscale_replace_or_append_witness :
    ∃ i, ∃ h : i < upscaleMatchState.galleryImages.length,
      upscaleMatchState.galleryImages[i] = mkGalleryItem sampleRes "g1" ∧
      (handleUpscale upscaleMatchState "idF"
          (.success ⟨"upimg", none, some "image/png"⟩)).galleryImages =
        upscaleMatchState.galleryImages.set i
          (mkGalleryItem ⟨"upimg", none, some "image/png"⟩ "g1") ∧
      (handleUpscale upscaleMatchState "idF"
          (.success ⟨"upimg", none, some "image/png"⟩)).galleryImages.length =
        upscaleMatchState.galleryImages.length :=
  (upscale_replace_or_append upscaleMatchState "idF" sampleRes
      ⟨"upimg", none, some "image/png"⟩ (by decide) (by decide) (by decide)).1
    (mkGalleryItem sampleRes "g1") (by decide)

/-- A list always starts with itself, whatever follows. -/
theorem charsStartWith_append (mid post : List Char) :
    charsStartWith (mid ++ post) mid = true := by
  induction mid with
  | nil => simp [charsStartWith]
  | cons a t ih => simp [charsStartWith, ih]

/-- A list occurs as a substring wherever it is spliced in. -/
theorem charsContain_append_mid (pre mid post : List Char) :
    charsContain (pre ++ (mid ++ post)) mid = true := by
  induction pre with
  | nil =>
      simp only [List.nil_append]
      cases mid with
      | nil => cases post <;> simp [charsContain, charsStartWith]
      | cons a t =>
          rw [List.cons_append]
          simp [charsContain, charsStartWith, charsStartWith_append]
  | cons h tl ih =>
      rw [List.cons_append]
      simp [charsContain, ih]

/-- JavaScript `includes` finds an interpolated middle segment. -/
theorem strIncludes_append_mid (a mid b : String) :
    strIncludes (a ++ mid ++ b) mid = true := by
  have : (a ++ mid ++ b).toList = a.toList ++ (mid.toList ++ b.toList) := by
    cases a; cases mid; cases b
    simp [String.toList, List.append_assoc]
  rw [strIncludes, this]
  exact charsContain_append_mid a.toList mid.toList b.toList

/-- C4 counterexample: keyword matching is not uniformly case-insensitive —
the message "XHR ERROR" contains the network keyword "xhr error" up to case
yet is not rethrown verbatim but mapped to the generic fallback — and the
generic fallback does not include the underlying message: for the
unclassified message "some weird flag" the produced text does not contain
it. -/
theorem handleApiError_classification_cex :
    strIncludes (strToLower "XHR ERROR") "xhr error" = true ∧
    handleApiError "XHR ERROR" "edit the image" ≠ "XHR ERROR" ∧
    handleApiError "XHR ERROR" "edit the image" =
      genericFallbackMessage "edit the image" ∧
    handleApiError "some weird flag" "generate the image" =
      genericFallbackMessage "generate the image" ∧
    strIncludes (handleApiError "some weird flag" "generate the image")
      "some weird flag" = false := by
  decide

/-- C4 amended: classification is by substring match on the failure message,
case-insensitively only for "network" and "failed to fetch" ("xhr error",
"500" and "Requested entity was not found." are matched case-sensitively):
a network/transport keyword hit rethrows the original message verbatim;
otherwise a case-insensitive "safety" hit produces the expanded user-facing
explanation (which embeds the operation context); otherwise the generic
fallback message is produced, which embeds the operation context — not the
underlying message — and points to the console for diagnosis. -/
theorem handleApiError_classification_amended (m ctx : String) :
    (strIncludes m "xhr error" = true ∨ strIncludes m "500" = true ∨
     strIncludes (strToLower m) "network" = true ∨
     strIncludes (strToLower m) "failed to fetch" = true ∨
     strIncludes m "Requested entity was not found." = true →
       handleApiError m ctx = m) ∧
    (networkKeywordHit m = false → safetyKeywordHit m = true →
       handleApiError m ctx = safetyDetailedMessage ctx ∧
       strIncludes (safetyDetailedMessage ctx) ctx = true) ∧
    (networkKeywordHit m = false → safetyKeywordHit m = false →
       handleApiError m ctx = genericFallbackMessage ctx ∧
       strIncludes (genericFallbackMessage ctx) ctx = true) := by
  refine ⟨?_, ?_, ?_⟩
  · intro h
    have hk : networkKeywordHit m = true := by
      unfold networkKeywordHit
      rcases h with h | h | h | h | h <;> simp [h]
    simp [handleApiError, hk]
  · intro h1 h2
    refine ⟨by simp [handleApiError, h1, h2], ?_⟩
    exact strIncludes_append_mid "The request to " ctx _
  · intro h1 h2
    refine ⟨by simp [handleApiError, h1, h2], ?_⟩
    exact strIncludes_append_mid "Failed to " ctx _

/-- C4 witness: the amended theorem applied to a concrete transport
failure. -/
theorem handleApiError_classification_amended_witness :
    handleApiError "xhr error at step 3" "edit the image" =
      "xhr error at step 3" :=
  (handleApiError_classification_amended "xhr error at step 3"
    "edit the image").1 (Or.inl (by decide))

/-- C10: when the character argument is absent or has no reference image,
the request built by `generateImage` and the settled outcome are identical
for any two faithfulness values (and any two such characters): the
description-only generation path is independent of the faithfulness dial and
of every character field. -/
theorem generateImage_faithfulness_noninterference
    (provider : Provider) (prompt aspect : String)
    (ch1 ch2 : Option Character) (f1 f2 : Nat)
    (h1 : charRefPresent ch1 = false) (h2 : charRefPresent ch2 = false) :
    generateImageRequest prompt aspect ch1 f1 =
      generateImageRequest prompt aspect ch2 f2 ∧
    runGenerateImage provider prompt aspect ch1 f1 =
      runGenerateImage provider prompt aspect ch2 f2 := by
  have e : generateImageRequest prompt aspect ch1 f1 =
      generateImageRequest prompt aspect ch2 f2 := by
    simp [generateImageRequest, h1, h2]
  refine ⟨e, ?_⟩
  simp only [runGenerateImage, h1, h2, Bool.false_eq_true, if_false]
  rw [e]

/-- C10 witness: the theorem applied to a fixed provider, the faithfulness
extremes 0 and 100, and characters with no reference image. -/
theorem generateImage_faithfulness_noninterference_witness :
    runGenerateImage (fun _ => GenResponse.images ["bytes"]) "a cat" "1:1"
        none 0 =
      runGenerateImage (fun _ => GenResponse.images ["bytes"]) "a cat" "1:1"
        (some plainCharacter) 100 :=
  (generateImage_faithfulness_noninterference
    (fun _ => GenResponse.images ["bytes"]) "a cat" "1:1" none
    (some plainCharacter) 0 100 rfl rfl).2
